import Mathlib

/-!
Verification development for the `ocr-service-p-eye` repository.

The development shallowly embeds, over `List Char` / `String`:
  * the MRZ checksum engine (`mrzChecksum`, `checksumOk`) and the date
    converter (`parseMrzDate`) of the n8n Doctr post-processing node;
  * the MRZ TD1 parser (`parseMrzTD1`) of the same node;
  * the Tesseract-fallback helpers of `server.js`
    (`normalizeMrz`, `extractCardNumberFromText`, `extractMrzLine2FromText`);
  * the `/verify-id` handler's decision structure (`verifyId`), with an
    explicit boolean recording whether the secondary (fallback) engine
    was invoked;
  * the n8n outcome-normalizer node (`normalizeOutcome`).

JavaScript strings are modelled as `List Char` (wrapped in `String` at the
interfaces).  `toUpperCase` is modelled on the ASCII range (`Char.toUpper`),
which covers every character class the embedded regexes accept.
-/

-- ════ Definitions (shallow embedding of the source) ════

/-- The character class of the JavaScript regex `\s` (whitespace). -/
def jsIsSpace (c : Char) : Bool :=
  c = ' ' || c = '\t' || c = '\n' || c.toNat = 11 || c.toNat = 12 || c = '\r' ||
  c.toNat = 0xA0 || c.toNat = 0x1680 || (0x2000 ≤ c.toNat && c.toNat ≤ 0x200A) ||
  c.toNat = 0x2028 || c.toNat = 0x2029 || c.toNat = 0x202F || c.toNat = 0x205F ||
  c.toNat = 0x3000 || c.toNat = 0xFEFF

/-- The character class of the JavaScript regex `\w`: `[A-Za-z0-9_]`. -/
def isWordC (c : Char) : Bool :=
  c.isDigit || ('A' ≤ c && c ≤ 'Z') || ('a' ≤ c && c ≤ 'z') || c = '_'

/-- The MRZ alphabet `[A-Z0-9<]` used by the parser's filters. -/
def isMrzChar (c : Char) : Bool :=
  c.isDigit || ('A' ≤ c && c ≤ 'Z') || c = '<'

/-- `[0-9A-Z]`, the alphanumeric-uppercase class of the MRZ-shape regex. -/
def isAlnumUp (c : Char) : Bool :=
  c.isDigit || ('A' ≤ c && c ≤ 'Z')

/-- JavaScript `String.prototype.indexOf` restricted to a single character:
returns the first index of `c` in `l`, or `-1` when absent. -/
def strIndexOf : List Char → Char → Int
  | [], _ => -1
  | x :: xs, c =>
    if x = c then 0
    else
      let r := strIndexOf xs c
      if r < 0 then -1 else r + 1

/-- The lookup table `"0123456789ABCDEFGHIJKLMNOPQRSTUVWXYZ"` of `mrzChecksum`. -/
def mrzTable : List Char := ("0123456789ABCDEFGHIJKLMNOPQRSTUVWXYZ" : String).data

/-- Per-character value of `mrzChecksum`: `'<'` gives 0, a digit its value,
otherwise the index in `mrzTable` clamped to 0 when negative (JS
`if (val < 0) val = 0`). -/
def charVal (c : Char) : Nat :=
  if c = '<' then 0
  else if c.isDigit then c.toNat - '0'.toNat
  else
    let v := strIndexOf mrzTable c
    if v < 0 then 0 else v.toNat

/-- The cycling weight `weights[i % 3]` with `weights = [7, 3, 1]`. -/
def weight731 (i : Nat) : Nat :=
  if i % 3 = 0 then 7 else if i % 3 = 1 then 3 else 1

/-- The accumulation loop of `mrzChecksum`, carrying the character index. -/
def sumWeighted : List Char → Nat → Nat
  | [], _ => 0
  | c :: cs, i => charVal c * weight731 i + sumWeighted cs (i + 1)

/-- `mrzChecksum` on a character list: weighted sum modulo 10. -/
def mrzChecksumL (l : List Char) : Nat := sumWeighted l 0 % 10

/-- `mrzChecksum(str)` from the n8n Doctr node. -/
def mrzChecksum (s : String) : Nat := mrzChecksumL s.data

/-- JavaScript `parseInt(c, 10)` on a one-character string: a digit parses to
its value, anything else is `NaN` (modelled as `none`). -/
def jsParseIntDigit (c : Char) : Option Nat :=
  if c.isDigit then some (c.toNat - '0'.toNat) else none

/-- `checksumOk(data, check)` on a list: `mrzChecksum(data) === parseInt(check, 10)`;
a `NaN` comparison is false. -/
def checksumOkL (data : List Char) (check : Char) : Bool :=
  match jsParseIntDigit check with
  | some n => mrzChecksumL data = n
  | none => false

/-- `checksumOk(data, check)` from the n8n Doctr node. -/
def checksumOk (data : String) (check : Char) : Bool := checksumOkL data.data check

/-- Modelled from the spec's words (§4.4), as the reference for claim C1:
digits map to their value, `<` to 0, `A`–`Z` to 10–35, anything else to 0. -/
def icaoCharValue (c : Char) : Nat :=
  if c.isDigit then c.toNat - '0'.toNat
  else if c = '<' then 0
  else if 'A' ≤ c ∧ c ≤ 'Z' then c.toNat - 'A'.toNat + 10
  else 0

/-- Modelled from the spec's words (§4.4): multiply each character's value by
the weight cycling `[7,3,1]` by position, sum, take modulo 10. -/
def icaoChecksum (s : String) : Nat :=
  (s.data.enum.map (fun p => icaoCharValue p.2 * [7, 3, 1].getD (p.1 % 3) 0)).sum % 10

/-- JavaScript `str.slice(a, b)` for `0 ≤ a ≤ b`: the characters in `[a, b)`. -/
def strSlice (l : List Char) (a b : Nat) : List Char := (l.drop a).take (b - a)

/-- JavaScript `parseInt(s, 10)` on the strings this code passes it: the value
of the maximal leading digit run, `NaN` (`none`) when there is none.  (Leading
whitespace or sign prefixes of full JS `parseInt` never occur at the call
sites modelled here.) -/
def jsParseIntPrefix (l : List Char) : Option Nat :=
  let ds := l.takeWhile Char.isDigit
  if ds.isEmpty then none
  else some (ds.foldl (fun acc c => 10 * acc + (c.toNat - '0'.toNat)) 0)

/-- JavaScript `String(n).padStart(2, "0")`. -/
def padStart2 (l : List Char) : List Char :=
  if l.length < 2 then List.replicate (2 - l.length) '0' ++ l else l

/-- `parseMrzDate(yymmdd)` from the n8n Doctr node: `null` unless the input
has length 6; century heuristic `yy > 30 → 19xx, else 20xx`.  When the year
digits fail to parse, JS produces `NaN > 30 = false` and interpolates
`String(NaN) = "NaN"`, giving the `"20NaN"` prefix. -/
def parseMrzDate (yymmdd : String) : Option String :=
  if yymmdd.data.length = 6 then
    let l := yymmdd.data
    let mm := strSlice l 2 4
    let dd := strSlice l 4 6
    let yyyy : List Char :=
      match jsParseIntPrefix (strSlice l 0 2) with
      | some yy => (if yy > 30 then ("19" : String).data else ("20" : String).data)
            ++ padStart2 (toString yy).data
      | none => ("20NaN" : String).data
    some ⟨yyyy ++ ("-" : String).data ++ mm ++ ("-" : String).data ++ dd⟩
  else none

/-- JavaScript `hay.startsWith(pat)` on character lists. -/
def startsWithL : List Char → List Char → Bool
  | _, [] => true
  | [], _ :: _ => false
  | h :: t, p :: ps => h = p && startsWithL t ps

/-- JavaScript `hay.includes(pat)` (contiguous substring) on character lists. -/
def containsL : List Char → List Char → Bool
  | [], pat => startsWithL [] pat
  | hay@(_ :: t), pat => startsWithL hay pat || containsL t pat

/-- `normalizeLine(line)` from the n8n Doctr node: uppercase, strip `\s`,
`O → 0`, guillemets (U+00AB/U+00BB) to `<`, keep only `[\w<]`. -/
def normalizeLine (l : List Char) : List Char :=
  ((((l.map Char.toUpper).filter (fun c => !jsIsSpace c)).map
      (fun c => if c = 'O' then '0' else c)).map
      (fun c => if c.toNat = 0xAB || c.toNat = 0xBB then '<' else c)).filter
      (fun c => isWordC c || c = '<')

/-- JavaScript `text.split(/\n/)` (keeps empty segments). -/
def splitNl : List Char → List (List Char)
  | [] => [[]]
  | c :: cs =>
    let r := splitNl cs
    if c = '\n' then [] :: r
    else
      match r with
      | h :: t => (c :: h) :: t
      | [] => [[c]]

/-- The candidate filter of `parseMrzTD1`: normalized lines of length ≥ 25
matching `^[A-Z0-9<]+$`. -/
def mrzCandidates (raw : List Char) : List (List Char) :=
  ((splitNl raw).map normalizeLine).filter (fun l => 25 ≤ l.length && l.all isMrzChar)

/-- `l.slice(0, 30).padEnd(30, "<")` of `parseMrzTD1`. -/
def pad30 (l : List Char) : List Char :=
  let t := l.take 30
  t ++ List.replicate (30 - t.length) '<'

/-- JavaScript one-character indexing `l[i]`.  The lines indexed in the parser
always have length 30, so the default is never produced there; `'?'` behaves
like JS `undefined` at every use site (it is neither a digit, `'M'` nor `'F'`). -/
def charAt (l : List Char) (i : Nat) : Char := l.getD i '?'

/-- The class `[A-Z<]` of the name-splitting regex. -/
def isNameChar (c : Char) : Bool := ('A' ≤ c && c ≤ 'Z') || c = '<'

/-- Backtracking search of `/^([A-Z<]+)<<([A-Z<]*).*/`: the greedy `[A-Z<]+`
group backtracks downward, so the accepted split is the largest group-1
length `k ≥ 1` whose `k` first characters are all `[A-Z<]` and which is
immediately followed by `"<<"`. -/
def findNameSplitGo (s : List Char) : Nat → Option Nat
  | 0 => none
  | k + 1 =>
    if (s.take (k + 1)).all isNameChar && s.get? (k + 1) == some '<'
        && s.get? (k + 2) == some '<' then some (k + 1)
    else findNameSplitGo s k

/-- Where `/^([A-Z<]+)<<([A-Z<]*).*/` splits `s`, if it matches at all. -/
def findNameSplit (s : List Char) : Option Nat := findNameSplitGo s s.length

/-- `l3.replace(/^([A-Z<]+)<<([A-Z<]*).*/, "$1|$2")`: on a match the whole
string (the trailing `.*` reaches the end; MRZ lines contain no newline) is
replaced by group 1, `'|'`, group 2; otherwise the string is unchanged. -/
def jsNameReplace (s : List Char) : List Char :=
  match findNameSplit s with
  | some k => s.take k ++ ['|'] ++ (s.drop (k + 2)).takeWhile isNameChar
  | none => s

/-- `namePart.includes("|") ? namePart.split("|") : [namePart, ""]` followed by
the two-element destructuring. -/
def nameParts (np : List Char) : List Char × List Char :=
  if np.contains '|' then
    match np.splitOn '|' with
    | a :: b :: _ => (a, b)
    | [a] => (a, [])
    | [] => ([], [])
  else (np, [])

/-- JavaScript `String.prototype.trim`. -/
def jsTrim (l : List Char) : List Char :=
  ((l.dropWhile jsIsSpace).reverse.dropWhile jsIsSpace).reverse

/-- The `checksums` object built by `parseMrzTD1`. -/
structure MrzChecksums where
  date_of_birth : Bool
  expiration_date : Bool
  composite : Bool
  all_ok : Bool
deriving DecidableEq, Repr

/-- The record returned by `parseMrzTD1` when a triplet is accepted. -/
structure MrzResult where
  mrz_line1 : String
  mrz_line2 : String
  mrz_line3 : String
  card_number : String
  nationality : String
  date_of_birth : Option String
  expiration_date : Option String
  sex : String
  surname : String
  names : String
  checksums : MrzChecksums
deriving DecidableEq, Repr

/-- The body of the accepted-triplet branch of `parseMrzTD1` on the padded
lines `l1`, `l2`, `l3`. -/
def buildRecord (l1 l2 l3 : List Char) : MrzResult :=
  let dobRaw := strSlice l2 0 6
  let dobOk := checksumOkL dobRaw (charAt l2 6)
  let expRaw := strSlice l2 8 14
  let expOk := checksumOkL expRaw (charAt l2 14)
  let parts := nameParts (jsNameReplace l3)
  let compositeData := strSlice l1 5 30 ++ strSlice l2 0 7 ++ strSlice l2 8 15
      ++ strSlice l2 18 29
  let compositeOk := checksumOkL compositeData (charAt l2 29)
  { mrz_line1 := ⟨l1⟩
    mrz_line2 := ⟨l2⟩
    mrz_line3 := ⟨l3⟩
    card_number := ⟨(strSlice l1 5 14).filter (fun c => c != '<')⟩
    nationality := ⟨(strSlice l1 2 5).filter (fun c => c != '<')⟩
    date_of_birth := parseMrzDate ⟨dobRaw⟩
    expiration_date := parseMrzDate ⟨expRaw⟩
    sex := if charAt l2 7 = 'M' then "M" else if charAt l2 7 = 'F' then "F" else "X"
    surname := ⟨jsTrim (parts.1.map (fun c => if c = '<' then ' ' else c))⟩
    names := ⟨jsTrim (parts.2.map (fun c => if c = '<' then ' ' else c))⟩
    checksums := { date_of_birth := dobOk, expiration_date := expOk,
                   composite := compositeOk, all_ok := dobOk && expOk && compositeOk } }

/-- The triplet scan of `parseMrzTD1`: pad the three consecutive candidates to
30 characters, accept when line 1 starts with `"ID"`, otherwise advance by one. -/
def tripletLoop : List (List Char) → Option MrzResult
  | a :: b :: c :: rest =>
    if startsWithL (pad30 a) ("ID" : String).data then
      some (buildRecord (pad30 a) (pad30 b) (pad30 c))
    else tripletLoop (b :: c :: rest)
  | _ => none

/-- `parseMrzTD1(rawText)` from the n8n Doctr node. -/
def parseMrzTD1 (rawText : String) : Option MrzResult :=
  tripletLoop (mrzCandidates rawText.data)

/-- A concrete OCR text whose three lines form an accepted TD1 triplet
(line 1 starts with `ID`; line 2's final character is the code's composite
check digit for these lines). -/
def mrzExampleRaw : String :=
  "IDFRA123456789012345678901234<\n123456789012345678901234567894\nABCDEFGH<<IJKLMNPQRSTUVWXYZABC"

/-- The record the parser produces on `mrzExampleRaw`. -/
def mrzExampleResult : MrzResult :=
  { mrz_line1 := "IDFRA123456789012345678901234<",
    mrz_line2 := "123456789012345678901234567894",
    mrz_line3 := "ABCDEFGH<<IJKLMNPQRSTUVWXYZABC",
    card_number := "123456789",
    nationality := "FRA",
    date_of_birth := some "2012-34-56",
    expiration_date := some "1990-12-34",
    sex := "X",
    surname := "ABCDEFGH",
    names := "IJKLMNPQRSTUVWXYZABC",
    checksums := { date_of_birth := false, expiration_date := false,
                   composite := true, all_ok := false } }

/-- A concrete OCR text accepted by the parser whose first line has digits
(`"123"`) where the 3-letter issuing-country code should be. -/
def c4ex : String :=
  "ID1234567890123456789012345678\n123456789012345678901234567890\nABCDEFGH<<IJKLMNPQRSTUVWXYZABC"

/-- Modelled from the spec's words (§4.3 step 5), the order asserted by claim
C5: composite check input `line2[18:29] + line1[5:30] + line2[0:7] +
line2[8:15]`. -/
def specCompositeInput (l1 l2 : List Char) : List Char :=
  strSlice l2 18 29 ++ strSlice l1 5 30 ++ strSlice l2 0 7 ++ strSlice l2 8 15

/-- The composite-checksum verdict a parse result would get under the
spec-ordered concatenation of claim C5. -/
def specCompositeCheckOf (r : MrzResult) : Bool :=
  checksumOkL (specCompositeInput r.mrz_line1.data r.mrz_line2.data)
    (charAt r.mrz_line2.data 29)

/-- The composite-checksum verdict stored in a parse result. -/
def compositeOkOf (r : MrzResult) : Bool := r.checksums.composite

/-- `normalizeMrz(str)` from server.js: uppercase, strip `\s`, then the three
homoglyph replacements `O→0`, `I→1`, `B→8` in sequence. -/
def normalizeMrz (s : String) : String :=
  ⟨((((s.data.map Char.toUpper).filter (fun c => !jsIsSpace c)).map
      (fun c => if c = 'O' then '0' else c)).map
      (fun c => if c = 'I' then '1' else c)).map
      (fun c => if c = 'B' then '8' else c)⟩

/-- `[nN]`, the first class of the labelled card-number regex under `/i`. -/
def isN (c : Char) : Bool := c = 'n' || c = 'N'

/-- `[o°º s]` under `/i`: `o`, `O`, U+00B0, U+00BA, space, `s`, `S`. -/
def isLabelClass2 (c : Char) : Bool :=
  c = 'o' || c = 'O' || c.toNat = 0xB0 || c.toNat = 0xBA || c = ' ' || c = 's' || c = 'S'

/-- `[s°]` under `/i`: `s`, `S`, U+00B0. -/
def isOptS (c : Char) : Bool := c = 's' || c = 'S' || c.toNat = 0xB0

/-- `([0-9]{12})`: the next 12 characters, provided they are all digits. -/
def digits12At (l : List Char) : Option (List Char) :=
  let ds := l.take 12
  if ds.length = 12 && ds.all Char.isDigit then some ds else none

/-- One attempt of `/n[o°º s][s°]?\s*:?\s*([0-9]{12})/i` at a fixed start
position.  Each optional/starred component consumes a character class
disjoint from every class that may follow it (`[s°]`, spaces and `:` contain
no digit, no space after `[s°]`, no `:` inside `\s`), so the greedy-first
backtracking regex semantics collapses to this deterministic reading. -/
def matchLabelAt : List Char → Option (List Char)
  | c0 :: c1 :: rest =>
    if isN c0 && isLabelClass2 c1 then
      let r1 := match rest with
        | c :: t => if isOptS c then t else rest
        | [] => rest
      let r2 := r1.dropWhile jsIsSpace
      let r3 := match r2 with
        | ':' :: t => t
        | _ => r2
      let r4 := r3.dropWhile jsIsSpace
      digits12At r4
    else none
  | _ => none

/-- Leftmost-match scan of `text.match(regex)` (no global flag): try the
matcher at each successive start position. -/
def scanFirst (f : List Char → Option (List Char)) : List Char → Option (List Char)
  | [] => f []
  | l@(_ :: t) =>
    match f l with
    | some r => some r
    | none => scanFirst f t

/-- One attempt of `/\b([0-9]{12})\b/` at a fixed position: the left word
boundary checks the previous character, the right one the character after the
12 digits. -/
def find12Here (prev : Option Char) (l : List Char) : Option (List Char) :=
  if ((match prev with | some p => !isWordC p | none => true) &&
      (match l.get? 12 with | some nxt => !isWordC nxt | none => true)) then
    digits12At l
  else none

/-- Leftmost match of `/\b([0-9]{12})\b/`, carrying the previous character. -/
def find12From (prev : Option Char) : List Char → Option (List Char)
  | [] => none
  | c :: cs =>
    match find12Here prev (c :: cs) with
    | some r => some r
    | none => find12From (some c) cs

/-- `text.match(/\b([0-9]{12})\b/)`, capture group. -/
def find12 (l : List Char) : Option (List Char) := find12From none l

/-- The line loop of `extractCardNumberFromText`: skip lines containing `<`,
return the first `\b\d{12}\b` match on a remaining line. -/
def cardFromLines : List (List Char) → Option (List Char)
  | [] => none
  | l :: ls =>
    if l.contains '<' then cardFromLines ls
    else
      match find12 l with
      | some r => some r
      | none => cardFromLines ls

/-- `extractCardNumberFromText(text)` from server.js: labelled pattern first,
then the first 12-digit run on a non-MRZ-looking line, then the first
12-digit run anywhere. -/
def extractCardNumberFromText (text : String) : Option String :=
  match scanFirst matchLabelAt text.data with
  | some ds => some ⟨ds⟩
  | none =>
    match cardFromLines (splitNl text.data) with
    | some ds => some ⟨ds⟩
    | none => (find12 text.data).map (fun ds => (⟨ds⟩ : String))

/-- `line.replace(/\s/g, "").toUpperCase()` of the MRZ-line-2 scan. -/
def cleanLine (l : List Char) : List Char :=
  (l.filter (fun c => !jsIsSpace c)).map Char.toUpper

/-- The per-line acceptance test of `extractMrzLine2FromText`:
`/^[0-9]{9,12}/` (at least 9 leading digits), contains `<`, length ≥ 27,
`/^[0-9A-Z<]+$/`. -/
def isMrzLine2Shape (cl : List Char) : Bool :=
  (9 ≤ cl.length && (cl.take 9).all Char.isDigit) && cl.contains '<' &&
    27 ≤ cl.length && (!cl.isEmpty && cl.all isMrzChar)

/-- One attempt of `/([0-9]{9,12}[0-9A-Z]{5,}[<][0-9A-Z<]{10,})/` at a fixed
start position, returning the matched text and the remainder.  With `dr` the
leading digit run and `R` the leading `[0-9A-Z]` run: the literal `<` can
only match at position `R` (backtracking the two greedy counted groups moves
only the boundary between them, never the end of their union, and a shorter
second group would place `<` on an alphanumeric character), a split with the
first group of length 9 exists exactly when `dr ≥ 9` and `R - 9 ≥ 5`, and the
final greedy `[0-9A-Z<]{10,}` takes the maximal run after the `<`.  The
matched text is therefore independent of which split the engine settles on. -/
def matchShapeAt (l : List Char) : Option (List Char × List Char) :=
  let dr := (l.takeWhile Char.isDigit).length
  let R := (l.takeWhile isAlnumUp).length
  if 9 ≤ dr && 14 ≤ R && l.get? R == some '<' then
    let f := ((l.drop (R + 1)).takeWhile isMrzChar).length
    if 10 ≤ f then some (l.take (R + 1 + f), l.drop (R + 1 + f)) else none
  else none

/-- `[...fullClean.matchAll(shape)]`: non-overlapping leftmost matches,
resuming after each matched segment.  The fuel starts at the list length and
dominates it throughout (every step consumes at least one character). -/
def mrzShapeScan : Nat → List Char → List (List Char)
  | 0, _ => []
  | _ + 1, [] => []
  | fuel + 1, l =>
    match matchShapeAt l with
    | some (m, rest) => m :: mrzShapeScan fuel rest
    | none =>
      match l with
      | [] => []
      | _ :: cs => mrzShapeScan fuel cs

/-- All matches of the MRZ-line-2 shape regex over the cleaned text. -/
def mrzShapeMatches (l : List Char) : List (List Char) := mrzShapeScan l.length l

/-- `matches.sort((a, b) => b.length - a.length)[0]` under Node's stable sort:
the earliest element of maximal length (a later element displaces the current
choice only when strictly longer). -/
def pickLongest : List (List Char) → Option (List Char)
  | [] => none
  | m :: ms =>
    match pickLongest ms with
    | none => some m
    | some b => if m.length < b.length then some b else some m

/-- `extractMrzLine2FromText(text)` from server.js. -/
def extractMrzLine2FromText (text : String) : Option String :=
  match ((splitNl text.data).map cleanLine).find? isMrzLine2Shape with
  | some cl => some ⟨cl⟩
  | none =>
    let fullClean := (text.data.filter (fun c => !jsIsSpace c)).map Char.toUpper
    match pickLongest (mrzShapeMatches fullClean) with
    | some m => some ⟨m⟩
    | none => none

/-- A JSON field value: distinguishes an omitted key, an explicit `null`, and
a present value — the distinction claim C8 is about. -/
inductive JVal (α : Type) where
  | absent
  | null
  | val (a : α)
deriving DecidableEq, Repr

/-- The JSON object printed by the PassportEye Python script on success
(`ok` and the fields the handler reads). -/
structure PeyeOut where
  ok : Bool
  number : String
  mrz_line1 : String
  mrz_line2 : String
  surname : String
  names : String
  date_of_birth : String
  expiration_date : String
  nationality : String
  sex : String
  all_checksums_ok : Bool
  valid_score : Nat
deriving DecidableEq, Repr

/-- The JSON body (plus HTTP status) of a `/verify-id` response.  Fields a
given code path does not mention stay `absent`; the debug-only `raw_text`
attachment is not modelled. -/
structure VResponse where
  status : Nat
  valid : Bool
  method : JVal String := .absent
  reason : JVal String := .absent
  message : JVal String := .absent
  card_number : JVal String := .absent
  mrz_line1 : JVal String := .absent
  mrz_line2 : JVal String := .absent
  surname : JVal String := .absent
  names : JVal String := .absent
  date_of_birth : JVal String := .absent
  expiration_date : JVal String := .absent
  nationality : JVal String := .absent
  sex : JVal String := .absent
  all_checksums_ok : JVal Bool := .absent
  valid_score : JVal Nat := .absent
deriving DecidableEq, Repr

/-- The Tesseract-fallback block of the `/verify-id` handler.  The argument
is the outcome of the `ocrmypdf`/`pdftotext` stage (`Except.error` models the
caught `ocrmypdf` failure); the returned boolean records that the secondary
engine was invoked. -/
def tesseractFallback (ocr : Except String String) : VResponse × Bool :=
  match ocr with
  | .error _ =>
    ({ status := 500, valid := false, reason := .val "ocr_failed",
       message := .val "PassportEye et Tesseract ont tous les deux échoué." }, true)
  | .ok text =>
    let cardNumber := extractCardNumberFromText text
    let mrzLine2 := extractMrzLine2FromText text
    match cardNumber with
    | none =>
      ({ status := 422, valid := false, reason := .val "card_number_not_found",
         message := .val "Impossible d\x27extraire le numéro de carte (PassportEye + Tesseract).",
         method := .val "tesseract_fallback" }, true)
    | some cn =>
      match mrzLine2 with
      | none =>
        ({ status := 422, valid := false, reason := .val "mrz_line2_not_found",
           message := .val "Impossible d\x27extraire la 2ème ligne MRZ.",
           method := .val "tesseract_fallback", card_number := .val cn }, true)
      | some m2 =>
        if containsL (normalizeMrz m2).data (normalizeMrz cn).data then
          ({ status := 200, valid := true, method := .val "tesseract_fallback",
             card_number := .val cn, mrz_line2 := .val m2,
             all_checksums_ok := .null, valid_score := .null }, true)
        else
          ({ status := 422, valid := false, reason := .val "card_number_mrz_mismatch",
             message := .val ("Numéro (" ++ cn ++ ") absent de la MRZ (" ++ m2 ++ ")."),
             method := .val "tesseract_fallback", card_number := .val cn,
             mrz_line2 := .val m2 }, true)

/-- The decision structure of `POST /verify-id`: `peye` is the PassportEye
attempt (`none` models the caught exception, `some r` its parsed JSON); when
`peyeResult?.ok && peyeResult.number` is truthy the handler responds
immediately, otherwise it runs the Tesseract fallback.  The boolean of the
pair records whether the fallback engine was invoked. -/
def verifyId (peye : Option PeyeOut) (ocr : Except String String) : VResponse × Bool :=
  match peye with
  | some r =>
    if r.ok && !(r.number == "") then
      ({ status := 200, valid := true, method := .val "passporteye",
         card_number := .val r.number, mrz_line1 := .val r.mrz_line1,
         mrz_line2 := .val r.mrz_line2, surname := .val r.surname,
         names := .val r.names, date_of_birth := .val r.date_of_birth,
         expiration_date := .val r.expiration_date,
         nationality := .val r.nationality, sex := .val r.sex,
         all_checksums_ok := .val r.all_checksums_ok,
         valid_score := .val r.valid_score }, false)
    else tesseractFallback ocr
  | none => tesseractFallback ocr

/-- The fields of the normalizer node's input (`/verify-id` response body). -/
structure NodeInput where
  error : Option String
  valid : Bool
  method : String
  valid_score : JVal Nat
  all_checksums_ok : JVal Bool
  card_number : JVal String
  surname : JVal String
  names : JVal String
  date_of_birth : JVal String
  expiration_date : JVal String
  nationality : JVal String
  sex : JVal String
  mrz_line1 : JVal String
  mrz_line2 : JVal String
  reason : JVal String
  message : JVal String
deriving DecidableEq, Repr

/-- The JSON object emitted by the normalizer node. -/
structure NodeOutput where
  valid : Bool
  method : JVal String := .absent
  confidence : JVal Nat := .absent
  all_checksums_ok : JVal Bool := .absent
  card_number : JVal String := .absent
  surname : JVal String := .absent
  names : JVal String := .absent
  date_of_birth : JVal String := .absent
  expiration_date : JVal String := .absent
  nationality : JVal String := .absent
  sex : JVal String := .absent
  mrz_line1 : JVal String := .absent
  mrz_line2 : JVal String := .absent
  reason : JVal String := .absent
  message : JVal String := .absent
deriving DecidableEq, Repr

/-- JS truthiness of `input.error` (a string field): present and non-empty. -/
def errTruthy : Option String → Bool
  | some e => !(e == "")
  | none => false

/-- JS `v || dflt` on a string field: the field when truthy, else `dflt`. -/
def jvalOrStr (v : JVal String) (dflt : String) : JVal String :=
  match v with
  | .val s => if s = "" then .val dflt else .val s
  | _ => .val dflt

/-- JS `v || null` on a string field. -/
def jvalOrNull (v : JVal String) : JVal String :=
  match v with
  | .val s => if s = "" then .null else .val s
  | _ => .null

/-- The n8n outcome-normalizer node (first code node): maps the microservice
response to the canonical record, with explicit `null`s for everything the
Tesseract fallback cannot supply. -/
def normalizeOutcome (input : NodeInput) : NodeOutput :=
  if errTruthy input.error then
    { valid := false, reason := .val "microservice_error",
      message := match input.error with | some e => .val e | none => .null }
  else if input.valid && (input.method == "passporteye") then
    { valid := true, method := .val "passporteye", confidence := input.valid_score,
      all_checksums_ok := input.all_checksums_ok, card_number := input.card_number,
      surname := input.surname, names := input.names,
      date_of_birth := input.date_of_birth, expiration_date := input.expiration_date,
      nationality := input.nationality, sex := input.sex,
      mrz_line1 := input.mrz_line1, mrz_line2 := input.mrz_line2 }
  else if input.valid && (input.method == "tesseract_fallback") then
    { valid := true, method := .val "tesseract_fallback", confidence := .null,
      all_checksums_ok := .null, card_number := input.card_number,
      mrz_line2 := input.mrz_line2, surname := .null, names := .null,
      date_of_birth := .null, expiration_date := .null,
      nationality := .null, sex := .null }
  else
    { valid := false, reason := jvalOrStr input.reason "unknown",
      message := jvalOrStr input.message "Validation échouée",
      card_number := jvalOrNull input.card_number,
      mrz_line2 := jvalOrNull input.mrz_line2 }

/-- A concrete successful PassportEye result (field values as in the response
example documented above the route). -/
def peyeEx : PeyeOut :=
  { ok := true, number := "190238151174",
    mrz_line1 := "IDFRAGOUABECHE<<<<<<<<<<<<<<<<",
    mrz_line2 := "1902381511749<<<<<<<<<<<<<<<<<",
    surname := "GOUABECHE", names := "KEVIN", date_of_birth := "930430",
    expiration_date := "330627", nationality := "FRA", sex := "M",
    all_checksums_ok := true, valid_score := 100 }

/-- A concrete OCR text on which the Tesseract fallback verifies: a labelled
card number and a matching MRZ second line. -/
def fallbackEx : String := "No: 190238151174\n1902381511743<<<<<<<<<<<<<<743"

/-- A concrete normalizer input in the `tesseract_fallback` success shape. -/
def nodeInputEx : NodeInput :=
  { error := none, valid := true, method := "tesseract_fallback",
    valid_score := .null, all_checksums_ok := .null,
    card_number := .val "190238151174", surname := .absent, names := .absent,
    date_of_birth := .absent, expiration_date := .absent,
    nationality := .absent, sex := .absent, mrz_line1 := .absent,
    mrz_line2 := .val "1902381511743<<<<<<<<<<<<<<743",
    reason := .absent, message := .absent }

-- ════ Theorems ════

theorem strIndexOf_of_not_mem (l : List Char) (c : Char) (h : c ∉ l) :
    strIndexOf l c = -1 := by
  induction l with
  | nil => rfl
  | cons x xs ih =>
    simp only [List.mem_cons, not_or] at h
    simp only [strIndexOf]
    rw [if_neg (by exact fun hx => h.1 hx.symm), ih h.2]
    rfl

theorem mem_mrzTable_char (c : Char) (h : c ∈ mrzTable) :
    c.isDigit = true ∨ ('A' ≤ c ∧ c ≤ 'Z') := by
  have : ∀ x ∈ mrzTable, x.isDigit = true ∨ ('A' ≤ x ∧ x ≤ 'Z') := by decide
  exact this c h

theorem char_eq_of_toNat_eq (c : Char) (n : Nat) (h : c.toNat = n) :
    c = Char.ofNat n := by
  have := Char.ofNat_toNat c
  rw [h] at this
  exact this.symm

set_option maxRecDepth 4000 in
theorem strIndexOf_letter (c : Char) (h1 : 'A' ≤ c) (h2 : c ≤ 'Z') :
    strIndexOf mrzTable c = (c.toNat - 55 : Int) := by
  have hge : 65 ≤ c.toNat := h1
  have hle : c.toNat ≤ 90 := h2
  set n := c.toNat with hn
  have hc : c = Char.ofNat n := char_eq_of_toNat_eq c n rfl
  interval_cases n <;> (rw [hc]; decide)

theorem charVal_eq_icaoCharValue (c : Char) : charVal c = icaoCharValue c := by
  by_cases hd : c.isDigit = true
  · have hlt : c ≠ '<' := by
      intro h; rw [h] at hd; exact absurd hd (by decide)
    simp [charVal, icaoCharValue, hd, hlt]
  · by_cases hc : c = '<'
    · simp [charVal, icaoCharValue, hc]
    · by_cases hl : 'A' ≤ c ∧ c ≤ 'Z'
      · have hidx := strIndexOf_letter c hl.1 hl.2
        have hge : 65 ≤ c.toNat := hl.1
        unfold charVal icaoCharValue
        rw [if_neg hc, if_neg hd, if_neg hd, if_neg hc, if_pos hl]
        simp only [hidx]
        rw [if_neg (by omega)]
        have hA : 'A'.toNat = 65 := rfl
        omega
      · have hmem : c ∉ mrzTable := by
          intro hm
          rcases mem_mrzTable_char c hm with h | h
          · exact hd h
          · exact hl h
        simp [charVal, icaoCharValue, hc, hd, hl, strIndexOf_of_not_mem mrzTable c hmem]

theorem weight731_eq_getD (i : Nat) : weight731 i = [7, 3, 1].getD (i % 3) 0 := by
  have h3 : i % 3 < 3 := Nat.mod_lt i (by omega)
  unfold weight731
  interval_cases h : i % 3 <;> simp

theorem sumWeighted_eq_enumFrom (l : List Char) (k : Nat) :
    sumWeighted l k =
      ((l.enumFrom k).map (fun p => icaoCharValue p.2 * [7, 3, 1].getD (p.1 % 3) 0)).sum := by
  induction l generalizing k with
  | nil => rfl
  | cons c cs ih =>
    simp only [sumWeighted, List.enumFrom, List.map, List.sum_cons,
      charVal_eq_icaoCharValue, weight731_eq_getD, ih]

/-- Claim C1: for every string, `mrzChecksum` equals the reference ICAO 7-3-1
modulo-10 computation (digits to their value, `<` to 0, letters `A`–`Z` to
10–35, weights 7,3,1 cycling by position, sum modulo 10); every character
outside that alphabet contributes value 0; and `checksumOk(data, check)` is
true iff `mrzChecksum(data)` equals the check character parsed as an integer. -/
theorem mrzChecksum_matches_reference :
    (∀ s : String, mrzChecksum s = icaoChecksum s) ∧
    (∀ c : Char, ¬(c.isDigit = true ∨ ('A' ≤ c ∧ c ≤ 'Z') ∨ c = '<') → charVal c = 0) ∧
    (∀ (data : String) (check : Char),
      checksumOk data check = true ↔ jsParseIntDigit check = some (icaoChecksum data)) := by
  refine ⟨?_, ?_, ?_⟩
  · intro s
    simp only [mrzChecksum, mrzChecksumL, icaoChecksum, sumWeighted_eq_enumFrom,
      List.enum]
  · intro c h
    have h1 : ¬ c.isDigit = true := fun hh => h (Or.inl hh)
    have h2 : ¬('A' ≤ c ∧ c ≤ 'Z') := fun hh => h (Or.inr (Or.inl hh))
    have h3 : c ≠ '<' := fun hh => h (Or.inr (Or.inr hh))
    rw [charVal_eq_icaoCharValue]
    simp [icaoCharValue, h1, h2, h3]
  · intro data check
    have hs : mrzChecksum data = icaoChecksum data := by
      simp only [mrzChecksum, mrzChecksumL, icaoChecksum, sumWeighted_eq_enumFrom,
        List.enum]
    unfold checksumOk checksumOkL
    rw [show mrzChecksumL data.data = mrzChecksum data from rfl, hs]
    cases hp : jsParseIntDigit check with
    | none => simp
    | some n => simp [eq_comm]

/-- Claim C1, witness: the outside-alphabet rule at `'*'` and the
`checksumOk` characterisation at a concrete field. -/
theorem mrzChecksum_matches_reference_witness :
    charVal '*' = 0 ∧
    (checksumOk "930430" '1' = true ↔ jsParseIntDigit '1' = some (icaoChecksum "930430")) :=
  ⟨mrzChecksum_matches_reference.2.1 '*' (by decide),
   mrzChecksum_matches_reference.2.2 "930430" '1'⟩

/-- Claim C10: `mrzChecksum` is total with range `0..9`, and `checksumOk`
returns false for every data string whenever the check character is not a
decimal digit. -/
theorem mrzChecksum_total_and_nondigit_check_fails :
    (∀ s : String, mrzChecksum s < 10) ∧
    (∀ (s : String) (check : Char), ¬check.isDigit → checksumOk s check = false) := by
  constructor
  · intro s
    exact Nat.mod_lt _ (by omega)
  · intro s check h
    unfold checksumOk checksumOkL jsParseIntDigit
    simp [h]

/-- Claim C10, witness: concrete evaluation at `"930430"` with check `'<'`. -/
theorem mrzChecksum_total_witness :
    mrzChecksum "930430" < 10 ∧ checksumOk "930430" '<' = false :=
  ⟨mrzChecksum_total_and_nondigit_check_fails.1 "930430",
   mrzChecksum_total_and_nondigit_check_fails.2 "930430" '<' (by decide)⟩

/-- Claim C6: for every 6-digit date string the century heuristic yields the
1900s when the two-digit year exceeds 30 and the 2000s otherwise; and at the
claim's sample points, `"05"` gives 2005, `"95"` gives 1995, `"30"` gives
2030 and `"31"` gives 1931. -/
theorem parseMrzDate_century_heuristic :
    (∀ s : String, s.data.length = 6 → (∀ c ∈ s.data, c.isDigit) →
      ∃ yy : Nat, jsParseIntPrefix (strSlice s.data 0 2) = some yy ∧
        parseMrzDate s = some ⟨(if yy > 30 then ("19" : String).data
            else ("20" : String).data) ++ padStart2 (toString yy).data ++
            ("-" : String).data ++ strSlice s.data 2 4 ++
            ("-" : String).data ++ strSlice s.data 4 6⟩) ∧
    parseMrzDate "050102" = some "2005-01-02" ∧
    parseMrzDate "950102" = some "1995-01-02" ∧
    parseMrzDate "300101" = some "2030-01-01" ∧
    parseMrzDate "310101" = some "1931-01-01" := by
  refine ⟨?_, by decide, by decide, by decide, by decide⟩
  intro s h6 hd
  unfold parseMrzDate
  generalize hg : s.data = l at h6 hd ⊢
  rcases l with _ | ⟨c1, l⟩; · simp at h6
  rcases l with _ | ⟨c2, l⟩; · simp at h6
  rcases l with _ | ⟨c3, l⟩; · simp at h6
  rcases l with _ | ⟨c4, l⟩; · simp at h6
  rcases l with _ | ⟨c5, l⟩; · simp at h6
  rcases l with _ | ⟨c6, l⟩; · simp at h6
  rcases l with _ | ⟨c7, l⟩
  case cons => simp at h6
  have hd1 : c1.isDigit := hd c1 (by simp)
  have hd2 : c2.isDigit := hd c2 (by simp)
  have hpref : jsParseIntPrefix (strSlice [c1, c2, c3, c4, c5, c6] 0 2) =
      some (10 * (c1.toNat - '0'.toNat) + (c2.toNat - '0'.toNat)) := by
    simp [strSlice, jsParseIntPrefix, List.takeWhile, hd1, hd2]
  refine ⟨_, hpref, ?_⟩
  rw [if_pos h6]
  simp [hpref, List.append_assoc]

/-- Claim C6, witness: the general heuristic theorem applied at `"310101"`. -/
theorem parseMrzDate_century_heuristic_witness :
    parseMrzDate "310101" = some "1931-01-01" := by
  obtain ⟨yy, h1, h2⟩ := parseMrzDate_century_heuristic.1 "310101" (by decide) (by decide)
  have h31 : jsParseIntPrefix (strSlice ("310101" : String).data 0 2) = some 31 := by decide
  rw [h31] at h1
  injection h1 with hy
  subst hy
  rw [h2]
  decide

theorem pad30_length (l : List Char) : (pad30 l).length = 30 := by
  unfold pad30
  simp only [List.length_append, List.length_replicate, List.length_take]
  omega

theorem tripletLoop_some (cs : List (List Char)) (r : MrzResult)
    (h : tripletLoop cs = some r) :
    ∃ a b c, startsWithL (pad30 a) ("ID" : String).data = true ∧
      r = buildRecord (pad30 a) (pad30 b) (pad30 c) := by
  induction cs with
  | nil => exact Option.noConfusion h
  | cons a tail ih =>
    rcases tail with _ | ⟨b, tail2⟩
    · exact Option.noConfusion h
    rcases tail2 with _ | ⟨c, rest⟩
    · exact Option.noConfusion h
    by_cases hid : startsWithL (pad30 a) ("ID" : String).data = true
    · simp only [tripletLoop] at h
      rw [if_pos hid] at h
      exact ⟨a, b, c, hid, (Option.some.inj h).symm⟩
    · simp only [tripletLoop] at h
      rw [if_neg hid] at h
      exact ih h

/-- Claim C9: in every non-null parse result, the three candidate lines were
padded/truncated to exactly 30 characters (pad `<`) before slicing, so the
stored lines have length 30 and the scalar fields are slices at fixed offsets
of those stored lines. -/
theorem parseMrzTD1_lines_are_30 (raw : String) (r : MrzResult)
    (h : parseMrzTD1 raw = some r) :
    r.mrz_line1.data.length = 30 ∧ r.mrz_line2.data.length = 30 ∧
    r.mrz_line3.data.length = 30 ∧
    r.card_number = ⟨(strSlice r.mrz_line1.data 5 14).filter (fun c => c != '<')⟩ ∧
    r.nationality = ⟨(strSlice r.mrz_line1.data 2 5).filter (fun c => c != '<')⟩ ∧
    r.sex = (if charAt r.mrz_line2.data 7 = 'M' then "M"
             else if charAt r.mrz_line2.data 7 = 'F' then "F" else "X") := by
  obtain ⟨a, b, c, hid, hr⟩ := tripletLoop_some _ r h
  subst hr
  exact ⟨pad30_length a, pad30_length b, pad30_length c, rfl, rfl, rfl⟩

/-- Claim C9, witness: the parser accepts `mrzExampleRaw` and the length
invariant holds on its result. -/
theorem parseMrzTD1_lines_are_30_witness :
    parseMrzTD1 mrzExampleRaw = some mrzExampleResult ∧
    mrzExampleResult.mrz_line1.data.length = 30 ∧
    mrzExampleResult.mrz_line2.data.length = 30 ∧
    mrzExampleResult.mrz_line3.data.length = 30 := by
  have h : parseMrzTD1 mrzExampleRaw = some mrzExampleResult := by decide
  obtain ⟨h1, h2, h3, _⟩ := parseMrzTD1_lines_are_30 _ _ h
  exact ⟨h, h1, h2, h3⟩

/-- Claim C4, counterexample: the parser accepts a triplet whose line 1 has
the non-alphabetic country field `"123"` after the `ID` marker — the
issuing-country code is not checked before acceptance. -/
theorem parseMrzTD1_accepts_unchecked_country :
    (parseMrzTD1 c4ex).isSome = true ∧
    (parseMrzTD1 c4ex).map MrzResult.nationality = some "123" ∧
    ("123" : String).data.all (fun c => 'A' ≤ c && c ≤ 'Z') = false :=
  ⟨by decide, by decide, by decide⟩

/-- Claim C4 as amended: the parser accepts the first consecutive triplet of
candidates whose (padded) first line begins with the 2-letter document marker
`ID`; only the marker is checked — the 3-letter country code is not validated
and no further validation of line 1 is required for acceptance. -/
theorem parseMrzTD1_marker_only_acceptance :
    (∀ (raw : String) (r : MrzResult), parseMrzTD1 raw = some r →
      startsWithL r.mrz_line1.data ("ID" : String).data = true) ∧
    (∀ (a b c : List Char) (rest : List (List Char)),
      startsWithL (pad30 a) ("ID" : String).data = true →
      tripletLoop (a :: b :: c :: rest) =
        some (buildRecord (pad30 a) (pad30 b) (pad30 c))) := by
  constructor
  · intro raw r h
    obtain ⟨a, b, c, hid, hr⟩ := tripletLoop_some _ r h
    subst hr
    exact hid
  · intro a b c rest hid
    simp only [tripletLoop]
    rw [if_pos hid]

/-- Claim C4, witness: the acceptance rule applied to a concrete triplet. -/
theorem parseMrzTD1_marker_only_acceptance_witness :
    tripletLoop [("IDFRA123456789012345678901234<" : String).data,
        ("123456789012345678901234567894" : String).data,
        ("ABCDEFGH<<IJKLMNPQRSTUVWXYZABC" : String).data] =
      some (buildRecord (pad30 ("IDFRA123456789012345678901234<" : String).data)
        (pad30 ("123456789012345678901234567894" : String).data)
        (pad30 ("ABCDEFGH<<IJKLMNPQRSTUVWXYZABC" : String).data)) :=
  parseMrzTD1_marker_only_acceptance.2 _ _ _ [] (by decide)

/-- Claim C5, counterexample: on `mrzExampleRaw` the code's composite check
passes while the check against the spec-ordered concatenation fails, so the
composite digit is not verified against the claimed order. -/
theorem parseMrzTD1_composite_order_spec_mismatch :
    (parseMrzTD1 mrzExampleRaw).map compositeOkOf = some true ∧
    (parseMrzTD1 mrzExampleRaw).map specCompositeCheckOf = some false :=
  ⟨by decide, by decide⟩

/-- Claim C5 as amended: the composite check digit at line 2 position 29 is
verified against the concatenation `line1[5:30] + line2[0:7] + line2[8:15] +
line2[18:29]` (the code's order, which differs from the order in the claim). -/
theorem parseMrzTD1_composite_input_order (raw : String) (r : MrzResult)
    (h : parseMrzTD1 raw = some r) :
    r.checksums.composite = checksumOkL (strSlice r.mrz_line1.data 5 30 ++
      strSlice r.mrz_line2.data 0 7 ++ strSlice r.mrz_line2.data 8 15 ++
      strSlice r.mrz_line2.data 18 29) (charAt r.mrz_line2.data 29) := by
  obtain ⟨a, b, c, hid, hr⟩ := tripletLoop_some _ r h
  subst hr
  rfl

/-- Claim C5, witness: the amended composite rule at a concrete accepted input. -/
theorem parseMrzTD1_composite_input_order_witness :
    parseMrzTD1 mrzExampleRaw = some mrzExampleResult ∧
    mrzExampleResult.checksums.composite =
      checksumOkL (strSlice mrzExampleResult.mrz_line1.data 5 30 ++
        strSlice mrzExampleResult.mrz_line2.data 0 7 ++
        strSlice mrzExampleResult.mrz_line2.data 8 15 ++
        strSlice mrzExampleResult.mrz_line2.data 18 29)
        (charAt mrzExampleResult.mrz_line2.data 29) := by
  have h : parseMrzTD1 mrzExampleRaw = some mrzExampleResult := by decide
  exact ⟨h, parseMrzTD1_composite_input_order _ _ h⟩

/-- Claim C2: whenever PassportEye reports `ok = true` with a non-empty card
number, `/verify-id` responds 200/Verified with method `passporteye`
(the primary engine) carrying that number, and the secondary engine is never
invoked (the spawn flag of the run is `false`). -/
theorem verifyId_primary_short_circuits (r : PeyeOut) (ocr : Except String String)
    (hok : r.ok = true) (hnum : r.number ≠ "") :
    (verifyId (some r) ocr).2 = false ∧
    (verifyId (some r) ocr).1.valid = true ∧
    (verifyId (some r) ocr).1.method = JVal.val "passporteye" ∧
    (verifyId (some r) ocr).1.status = 200 ∧
    (verifyId (some r) ocr).1.card_number = JVal.val r.number := by
  have hcond : (r.ok && !(r.number == "")) = true := by
    simp [hok, hnum]
  simp [verifyId, hcond]

/-- Claim C2, witness: a concrete primary success short-circuits even when the
fallback stage would fail. -/
theorem verifyId_primary_short_circuits_witness :
    (verifyId (some peyeEx) (Except.error "ocr tools unavailable")).2 = false ∧
    (verifyId (some peyeEx) (Except.error "ocr tools unavailable")).1.valid = true ∧
    (verifyId (some peyeEx) (Except.error "ocr tools unavailable")).1.method
      = JVal.val "passporteye" ∧
    (verifyId (some peyeEx) (Except.error "ocr tools unavailable")).1.status = 200 ∧
    (verifyId (some peyeEx) (Except.error "ocr tools unavailable")).1.card_number
      = JVal.val peyeEx.number :=
  verifyId_primary_short_circuits peyeEx _ rfl (by decide)

theorem verifyId_fallback_eq (peye : Option PeyeOut) (ocr : Except String String)
    (hp : ∀ rr, peye = some rr → ¬(rr.ok = true ∧ rr.number ≠ "")) :
    verifyId peye ocr = tesseractFallback ocr := by
  cases peye with
  | none => rfl
  | some r =>
    have hr := hp r rfl
    have hcond : (r.ok && !(r.number == "")) = false := by
      by_cases h1 : r.ok = true
      · have h2 : r.number = "" := by
          by_contra h2
          exact hr ⟨h1, h2⟩
        simp [h2]
      · simp only [Bool.not_eq_true] at h1
        simp [h1]
    simp [verifyId, hcond]

/-- Claim C3: on the secondary path (primary not successful, OCR text
obtained) the rejection checks run in the documented order: no card number →
422 `card_number_not_found`; card number but no MRZ line 2 → 422
`mrz_line2_not_found` still carrying the card number; both present but the
normalized card number is not a substring of the normalized MRZ line → 422
`card_number_mrz_mismatch`; otherwise 200 Verified, method
`tesseract_fallback`. -/
theorem verifyId_secondary_check_order (peye : Option PeyeOut) (text : String)
    (hp : ∀ rr, peye = some rr → ¬(rr.ok = true ∧ rr.number ≠ "")) :
    (extractCardNumberFromText text = none →
      (verifyId peye (Except.ok text)).1.status = 422 ∧
      (verifyId peye (Except.ok text)).1.valid = false ∧
      (verifyId peye (Except.ok text)).1.reason = JVal.val "card_number_not_found") ∧
    (∀ cn, extractCardNumberFromText text = some cn →
      extractMrzLine2FromText text = none →
      (verifyId peye (Except.ok text)).1.status = 422 ∧
      (verifyId peye (Except.ok text)).1.valid = false ∧
      (verifyId peye (Except.ok text)).1.reason = JVal.val "mrz_line2_not_found" ∧
      (verifyId peye (Except.ok text)).1.card_number = JVal.val cn) ∧
    (∀ cn m2, extractCardNumberFromText text = some cn →
      extractMrzLine2FromText text = some m2 →
      containsL (normalizeMrz m2).data (normalizeMrz cn).data = false →
      (verifyId peye (Except.ok text)).1.status = 422 ∧
      (verifyId peye (Except.ok text)).1.reason = JVal.val "card_number_mrz_mismatch" ∧
      (verifyId peye (Except.ok text)).1.card_number = JVal.val cn ∧
      (verifyId peye (Except.ok text)).1.mrz_line2 = JVal.val m2) ∧
    (∀ cn m2, extractCardNumberFromText text = some cn →
      extractMrzLine2FromText text = some m2 →
      containsL (normalizeMrz m2).data (normalizeMrz cn).data = true →
      (verifyId peye (Except.ok text)).1.status = 200 ∧
      (verifyId peye (Except.ok text)).1.valid = true ∧
      (verifyId peye (Except.ok text)).1.method = JVal.val "tesseract_fallback" ∧
      (verifyId peye (Except.ok text)).1.card_number = JVal.val cn ∧
      (verifyId peye (Except.ok text)).2 = true) := by
  have he : verifyId peye (Except.ok text) = tesseractFallback (Except.ok text) :=
    verifyId_fallback_eq _ _ hp
  refine ⟨?_, ?_, ?_, ?_⟩
  · intro hcn
    rw [he]
    simp [tesseractFallback, hcn]
  · intro cn hcn hm2
    rw [he]
    simp [tesseractFallback, hcn, hm2]
  · intro cn m2 hcn hm2 hct
    rw [he]
    simp [tesseractFallback, hcn, hm2, hct]
  · intro cn m2 hcn hm2 hct
    rw [he]
    simp [tesseractFallback, hcn, hm2, hct]

/-- Claim C3, witness: with no primary result and empty OCR text the handler
rejects with `card_number_not_found`. -/
theorem verifyId_secondary_check_order_witness :
    (verifyId none (Except.ok "")).1.status = 422 ∧
    (verifyId none (Except.ok "")).1.valid = false ∧
    (verifyId none (Except.ok "")).1.reason = JVal.val "card_number_not_found" :=
  (verifyId_secondary_check_order none "" (fun rr h => Option.noConfusion h)).1
    (by decide)

theorem pickLongest_spec (ms : List (List Char)) (h : ms ≠ []) :
    ∃ m ∈ ms, pickLongest ms = some m ∧ ∀ x ∈ ms, x.length ≤ m.length := by
  induction ms with
  | nil => exact absurd rfl h
  | cons a ms ih =>
    by_cases hms : ms = []
    · subst hms
      exact ⟨a, by simp, rfl, by simp⟩
    · obtain ⟨m, hmem, hpick, hall⟩ := ih hms
      by_cases h2 : a.length < m.length
      · refine ⟨m, List.mem_cons_of_mem a hmem, ?_, ?_⟩
        · simp only [pickLongest, hpick]
          rw [if_pos h2]
        · intro x hx
          rcases List.mem_cons.mp hx with hx | hx
          · exact hx ▸ Nat.le_of_lt h2
          · exact hall x hx
      · refine ⟨a, List.mem_cons_self a ms, ?_, ?_⟩
        · simp only [pickLongest, hpick]
          rw [if_neg h2]
        · intro x hx
          rcases List.mem_cons.mp hx with hx | hx
          · exact hx ▸ Nat.le_refl _
          · exact Nat.le_trans (hall x hx) (Nat.le_of_not_lt h2)

/-- Claim C7: `extractMrzLine2FromText` returns the first normalized input
line passing the MRZ-line-2 test (≥ 27 chars of `[0-9A-Z<]`, at least 9
leading digits, at least one `<`); when no line passes, it returns a longest
match of the MRZ-line-2 shape regex over the whitespace-stripped uppercased
text; and it returns `null` exactly when neither search succeeds. -/
theorem extractMrzLine2_behaviour (text : String) :
    (∀ cl, ((splitNl text.data).map cleanLine).find? isMrzLine2Shape = some cl →
      extractMrzLine2FromText text = some ⟨cl⟩) ∧
    (((splitNl text.data).map cleanLine).find? isMrzLine2Shape = none →
      mrzShapeMatches ((text.data.filter (fun c => !jsIsSpace c)).map Char.toUpper) = [] →
      extractMrzLine2FromText text = none) ∧
    (((splitNl text.data).map cleanLine).find? isMrzLine2Shape = none →
      ∀ ms, ms = mrzShapeMatches ((text.data.filter (fun c => !jsIsSpace c)).map Char.toUpper) →
      ms ≠ [] →
      ∃ m ∈ ms, extractMrzLine2FromText text = some ⟨m⟩ ∧
        ∀ x ∈ ms, x.length ≤ m.length) := by
  refine ⟨?_, ?_, ?_⟩
  · intro cl hcl
    simp [extractMrzLine2FromText, hcl]
  · intro hnone hms
    simp [extractMrzLine2FromText, hnone, hms, pickLongest]
  · intro hnone ms hms hne
    obtain ⟨m, hmem, hpick, hall⟩ := pickLongest_spec ms hne
    subst hms
    refine ⟨m, hmem, ?_, hall⟩
    simp [extractMrzLine2FromText, hnone, hpick]

/-- Claim C7, witness: a concrete line passing the per-line test is returned
as-is. -/
theorem extractMrzLine2_behaviour_witness :
    extractMrzLine2FromText "1234567890123456789012<<<<<AB"
      = some "1234567890123456789012<<<<<AB" :=
  (extractMrzLine2_behaviour "1234567890123456789012<<<<<AB").1
    ("1234567890123456789012<<<<<AB" : String).data (by decide)

theorem digits12At_len (l ds : List Char) (h : digits12At l = some ds) :
    ds.length = 12 := by
  simp only [digits12At] at h
  split at h
  case isTrue hc =>
    injection h with h'
    subst h'
    simp only [Bool.and_eq_true, decide_eq_true_eq] at hc
    exact hc.1
  case isFalse => exact Option.noConfusion h

theorem matchLabelAt_len (l ds : List Char) (h : matchLabelAt l = some ds) :
    ds.length = 12 := by
  rcases l with _ | ⟨c0, _ | ⟨c1, rest⟩⟩
  · exact Option.noConfusion h
  · exact Option.noConfusion h
  · simp only [matchLabelAt] at h
    split at h
    case isTrue => exact digits12At_len _ _ h
    case isFalse => exact Option.noConfusion h

theorem scanFirst_label_len (l ds : List Char)
    (h : scanFirst matchLabelAt l = some ds) : ds.length = 12 := by
  induction l with
  | nil => exact matchLabelAt_len _ _ h
  | cons c cs ih =>
    simp only [scanFirst] at h
    rcases hm : matchLabelAt (c :: cs) with _ | r
    · rw [hm] at h
      exact ih h
    · rw [hm] at h
      injection h with h'
      exact h' ▸ matchLabelAt_len _ _ hm

theorem find12Here_len (prev : Option Char) (l ds : List Char)
    (h : find12Here prev l = some ds) : ds.length = 12 := by
  simp only [find12Here] at h
  split at h
  case isTrue => exact digits12At_len _ _ h
  case isFalse => exact Option.noConfusion h

theorem find12From_len (l : List Char) :
    ∀ (prev : Option Char) (ds : List Char),
      find12From prev l = some ds → ds.length = 12 := by
  induction l with
  | nil => intro prev ds h; exact Option.noConfusion h
  | cons c cs ih =>
    intro prev ds h
    simp only [find12From] at h
    rcases hf : find12Here prev (c :: cs) with _ | r
    · rw [hf] at h
      exact ih (some c) ds h
    · rw [hf] at h
      injection h with h'
      exact h' ▸ find12Here_len _ _ _ hf

theorem cardFromLines_len (ls : List (List Char)) :
    ∀ ds : List Char, cardFromLines ls = some ds → ds.length = 12 := by
  induction ls with
  | nil => intro ds h; exact Option.noConfusion h
  | cons l ls ih =>
    intro ds h
    simp only [cardFromLines] at h
    split at h
    · exact ih ds h
    · rcases hf : find12 l with _ | r
      · rw [hf] at h
        exact ih ds h
      · rw [hf] at h
        injection h with h'
        exact h' ▸ find12From_len _ _ _ hf

theorem extractCardNumberFromText_len (t : String) (cn : String)
    (h : extractCardNumberFromText t = some cn) : cn.data.length = 12 := by
  simp only [extractCardNumberFromText] at h
  rcases h1 : scanFirst matchLabelAt t.data with _ | ds
  · rw [h1] at h
    rcases h2 : cardFromLines (splitNl t.data) with _ | ds
    · rw [h2] at h
      rcases h3 : find12 t.data with _ | ds
      · rw [h3] at h
        exact Option.noConfusion h
      · rw [h3] at h
        have h' : (some (⟨ds⟩ : String) : Option String) = some cn := h
        injection h' with h''
        subst h''
        exact find12From_len _ _ _ h3
    · rw [h2] at h
      injection h with h'
      subst h'
      exact cardFromLines_len _ _ h2
  · rw [h1] at h
    injection h with h'
    subst h'
    exact scanFirst_label_len _ _ h1

theorem extractCardNumberFromText_ne_empty (t : String) (cn : String)
    (h : extractCardNumberFromText t = some cn) : cn ≠ "" := by
  intro he
  have hl := extractCardNumberFromText_len t cn h
  rw [he] at hl
  simp at hl

theorem tesseractFallback_verified (ocr : Except String String)
    (hv : (tesseractFallback ocr).1.valid = true) :
    (∃ c, (tesseractFallback ocr).1.card_number = JVal.val c ∧ c ≠ "") ∧
    (tesseractFallback ocr).1.all_checksums_ok = JVal.null ∧
    (tesseractFallback ocr).1.method = JVal.val "tesseract_fallback" := by
  cases ocr with
  | error e => simp [tesseractFallback] at hv
  | ok text =>
    rcases hcn : extractCardNumberFromText text with _ | cn
    · simp [tesseractFallback, hcn] at hv
    · rcases hm2 : extractMrzLine2FromText text with _ | m2
      · simp [tesseractFallback, hcn, hm2] at hv
      · rcases hct : containsL (normalizeMrz m2).data (normalizeMrz cn).data with _ | _
        · simp [tesseractFallback, hcn, hm2, hct] at hv
        · refine ⟨⟨cn, ?_, extractCardNumberFromText_ne_empty text cn hcn⟩, ?_, ?_⟩ <;>
            simp [tesseractFallback, hcn, hm2, hct]

/-- Claim C8: every Verified `/verify-id` response carries a non-empty
`card_number`; a Verified response with the secondary method carries
`all_checksums_ok = null` (never a boolean); and the outcome normalizer's
`tesseract_fallback` branch emits explicit `null`s for `confidence`,
`all_checksums_ok`, `surname`, `names`, both dates, `nationality` and `sex`
rather than omitting those keys. -/
theorem verified_outcome_invariants :
    (∀ (peye : Option PeyeOut) (ocr : Except String String),
      (verifyId peye ocr).1.valid = true →
      (∃ c, (verifyId peye ocr).1.card_number = JVal.val c ∧ c ≠ "") ∧
      ((verifyId peye ocr).1.method = JVal.val "tesseract_fallback" →
        (verifyId peye ocr).1.all_checksums_ok = JVal.null)) ∧
    (∀ input : NodeInput, errTruthy input.error = false → input.valid = true →
      input.method = "tesseract_fallback" →
      normalizeOutcome input =
        { valid := true,
          method := .val "tesseract_fallback",
          confidence := .null,
          all_checksums_ok := .null,
          card_number := input.card_number,
          mrz_line2 := input.mrz_line2,
          surname := .null,
          names := .null,
          date_of_birth := .null,
          expiration_date := .null,
          nationality := .null,
          sex := .null }) := by
  constructor
  · intro peye ocr hv
    cases peye with
    | none =>
      have he : verifyId none ocr = tesseractFallback ocr := rfl
      rw [he] at hv ⊢
      obtain ⟨hc, hnull, _⟩ := tesseractFallback_verified ocr hv
      exact ⟨hc, fun _ => hnull⟩
    | some r =>
      rcases hc : (r.ok && !(r.number == "")) with _ | _
      · have he : verifyId (some r) ocr = tesseractFallback ocr := by
          simp [verifyId, hc]
        rw [he] at hv ⊢
        obtain ⟨hcard, hnull, _⟩ := tesseractFallback_verified ocr hv
        exact ⟨hcard, fun _ => hnull⟩
      · simp only [Bool.and_eq_true, Bool.not_eq_true', beq_eq_false_iff_ne] at hc
        constructor
        · exact ⟨r.number, by simp [verifyId, hc.1, hc.2], hc.2⟩
        · intro hmeth
          have : JVal.val "passporteye" = JVal.val "tesseract_fallback" := by
            rw [← hmeth]
            simp [verifyId, hc.1, hc.2]
          simp at this
  · intro input he hv hm
    simp [normalizeOutcome, he, hv, hm]

/-- Claim C8, witness: the invariants at a concrete secondary-path Verified
run and a concrete normalizer input. -/
theorem verified_outcome_invariants_witness :
    (verifyId none (Except.ok fallbackEx)).1.all_checksums_ok = JVal.null ∧
    normalizeOutcome nodeInputEx =
      { valid := true,
        method := .val "tesseract_fallback",
        confidence := .null,
        all_checksums_ok := .null,
        card_number := nodeInputEx.card_number,
        mrz_line2 := nodeInputEx.mrz_line2,
        surname := .null,
        names := .null,
        date_of_birth := .null,
        expiration_date := .null,
        nationality := .null,
        sex := .null } :=
  ⟨(verified_outcome_invariants.1 none (Except.ok fallbackEx) (by decide)).2 (by decide),
   verified_outcome_invariants.2 nodeInputEx (by decide) rfl rfl⟩
